import Mathlib

/-!
Verification of the loan-lifecycle front-end: a shallow embedding of the
status model, per-role transition offers, optimistic status updates,
search filters, pagination and dashboard aggregates found in the page
components, together with the transition engine described in the
specification.  Strings are modelled as lists of characters; JavaScript
numbers are modelled as rationals.
-/

/-- Strings of the front-end (JS strings) modelled as lists of characters. -/
abbrev Str : Type := List Char

/-- JS `String.prototype.toLowerCase` modelled character-wise. -/
def toLowerCase (s : Str) : Str :=
  List.map Char.toLower s

/-- Helper for `includesStr`: `leadsWith sub hay` is true when `sub` stands
at the very beginning of `hay`. -/
def leadsWith : Str → Str → Bool
  | [], _ => true
  | _ :: _, [] => false
  | a :: as, b :: bs => a == b && leadsWith as bs

/-- JS `hay.includes(sub)`: substring occurrence test. -/
def includesStr : Str → Str → Bool
  | [], sub => leadsWith sub []
  | h :: t, sub => leadsWith sub (h :: t) || includesStr (t : Str) sub

/-- `sub` occurs contiguously inside `hay`. -/
def SubstringOf (sub hay : Str) : Prop :=
  ∃ pre post : Str, pre ++ sub ++ post = hay

/-- The loan status union type of the `Loan` interface
(src/unnamed/part_000, line 40). -/
inductive LoanStatus
  | pending
  | verified
  | approved
  | disbursed
  | repaying
  | completed
  | defaulted
  | rejected
deriving DecidableEq, BEq, Fintype

/-- The status strings as they appear in the source union type. -/
def statusString : LoanStatus → Str
  | LoanStatus.pending => "pending".toList
  | LoanStatus.verified => "verified".toList
  | LoanStatus.approved => "approved".toList
  | LoanStatus.disbursed => "disbursed".toList
  | LoanStatus.repaying => "repaying".toList
  | LoanStatus.completed => "completed".toList
  | LoanStatus.defaulted => "defaulted".toList
  | LoanStatus.rejected => "rejected".toList

/-- The three actor roles of the application. -/
inductive Role
  | admin
  | verifier
  | user
deriving DecidableEq, BEq, Fintype

/-- Borrower account standing, the `Borrower` interface of the admin
borrowers page (src/app/admin/borrowers/page.tsx, line 31). -/
inductive BorrowerStatus
  | active
  | inactive
  | blacklisted
deriving DecidableEq, BEq, Fintype

/-- The embedded borrower user of a loan (src/unnamed/part_000, lines 30-34). -/
structure LoanUser where
  _id : Str
  name : Str
  email : Str
deriving DecidableEq

/-- The `Loan` interface (src/unnamed/part_000, lines 28-44). -/
structure Loan where
  _id : Str
  user : LoanUser
  amount : ℚ
  interestRate : ℚ
  tenure : ℕ
  applicationDate : Str
  disbursementDate : Option Str
  status : LoanStatus
  reason : Str
  amountPaid : ℚ
  totalAmountPayable : ℚ
deriving DecidableEq

/-- The `Borrower` interface of the admin borrowers page
(src/app/admin/borrowers/page.tsx, lines 26-35). -/
structure Borrower where
  _id : Str
  name : Str
  email : Str
  phone : Str
  status : BorrowerStatus
  loans : ℕ
  totalBorrowed : ℚ
  lastActivity : Str
deriving DecidableEq

/-- The record spread `{ ...loan, status: newStatus }` used by
`handleUpdateStatus` (src/unnamed/part_000, line 206). -/
def withStatus (loan : Loan) (newStatus : LoanStatus) : Loan :=
  { loan with status := newStatus }

/-- The optimistic local update of `handleUpdateStatus`
(src/unnamed/part_000, line 206): map over the list, replacing the
status of every loan whose `_id` equals the requested id. -/
def updateLoanStatus (loans : List Loan) (loanId : Str) (newStatus : LoanStatus) : List Loan :=
  List.map (fun loan => if loan._id = loanId then withStatus loan newStatus else loan) loans

/-- The record spread `{ ...borrower, status: newStatus }` used by the
borrower `handleUpdateStatus` (src/app/admin/borrowers/page.tsx, line 163). -/
def withBorrowerStatus (b : Borrower) (newStatus : BorrowerStatus) : Borrower :=
  { b with status := newStatus }

/-- The optimistic local update of the borrower `handleUpdateStatus`
(src/app/admin/borrowers/page.tsx, lines 162-164). -/
def updateBorrowerStatus (bs : List Borrower) (borrowerId : Str) (newStatus : BorrowerStatus) :
    List Borrower :=
  List.map (fun b => if b._id = borrowerId then withBorrowerStatus b newStatus else b) bs

/-- The action buttons of the admin `LoanTable`
(src/unnamed/part_000, lines 609-684), one conditional per button, in
render order: Verify, Approve, Disburse, Start Repayment, Mark
Completed, Reject, Mark Default. -/
def adminLoanTargets (s : LoanStatus) : List LoanStatus :=
  (if s = LoanStatus.pending then [LoanStatus.verified] else [])
  ++ (if s = LoanStatus.verified then [LoanStatus.approved] else [])
  ++ (if s = LoanStatus.approved then [LoanStatus.disbursed] else [])
  ++ (if s = LoanStatus.disbursed then [LoanStatus.repaying] else [])
  ++ (if s = LoanStatus.repaying then [LoanStatus.completed] else [])
  ++ (if List.contains [LoanStatus.pending, LoanStatus.verified, LoanStatus.approved] s
      then [LoanStatus.rejected] else [])
  ++ (if List.contains [LoanStatus.disbursed, LoanStatus.repaying] s
      then [LoanStatus.defaulted] else [])

/-- The action buttons of the verifier `LoanTable`
(src/app/admin/manage-users/page.tsx, lines 644-663): Verify and Reject,
shown only for pending loans. -/
def verifierLoanTargets (s : LoanStatus) : List LoanStatus :=
  if s = LoanStatus.pending then [LoanStatus.verified, LoanStatus.rejected] else []

/-- Per-role transition offers of the UI.  The delivered pages expose loan
transition buttons only to admin (src/unnamed/part_000) and verifier
(src/app/admin/manage-users/page.tsx, verifier loans component); no page
offers a transition to role `user`. -/
def allowedTargets : Role → LoanStatus → List LoanStatus
  | Role.admin, s => adminLoanTargets s
  | Role.verifier, s => verifierLoanTargets s
  | Role.user, _ => []

/-- The statuses without outgoing transitions. -/
def terminalStatuses : List LoanStatus :=
  [LoanStatus.completed, LoanStatus.defaulted, LoanStatus.rejected]

/-- Modelled from the spec: the transition table of §4.1 of the
specification (role → from status → allowed target statuses); the
transition engine itself is not part of the delivered front-end sources,
only its UI callers are. -/
def specTransitionTable : Role → LoanStatus → List LoanStatus
  | Role.verifier, LoanStatus.pending => [LoanStatus.verified, LoanStatus.rejected]
  | Role.admin, LoanStatus.pending =>
      [LoanStatus.verified, LoanStatus.approved, LoanStatus.rejected]
  | Role.admin, LoanStatus.verified => [LoanStatus.approved, LoanStatus.rejected]
  | Role.admin, LoanStatus.approved => [LoanStatus.disbursed, LoanStatus.rejected]
  | Role.admin, LoanStatus.disbursed => [LoanStatus.repaying, LoanStatus.defaulted]
  | Role.admin, LoanStatus.repaying => [LoanStatus.completed, LoanStatus.defaulted]
  | _, _ => []

/-- Modelled from the spec: an edge `from → to` exists in the lifecycle
graph when at least one role may take it (glossary, "Lifecycle graph"). -/
def edgeExists (s t : LoanStatus) : Bool :=
  List.any [Role.admin, Role.verifier, Role.user]
    (fun r => List.contains (specTransitionTable r s) t)

/-- Modelled from the spec: the error taxonomy of §7. -/
inductive TransitionError
  | InvalidTransition
  | Forbidden
  | DegenerateInput
deriving DecidableEq, BEq, Fintype

/-- Modelled from the spec: `requestTransition(loan, actingRole,
targetStatus)` of §4.1, an operation absent from the delivered sources.
Equal current and target status is rejected before table lookup (§7
`DegenerateInput`); a target unreachable from the current status for
every role is `InvalidTransition`; an existing edge not permitted to the
acting role is `Forbidden`; otherwise the result is the input loan with
`status = targetStatus` and, when the target is `disbursed` and no
disbursement date is set, `disbursementDate` stamped with the current
time. -/
def requestTransition (now : Str) (loan : Loan) (actingRole : Role)
    (targetStatus : LoanStatus) : Except TransitionError Loan :=
  if targetStatus = loan.status then Except.error TransitionError.DegenerateInput
  else if edgeExists loan.status targetStatus then
    if List.contains (specTransitionTable actingRole loan.status) targetStatus then
      Except.ok
        { loan with
            status := targetStatus,
            disbursementDate :=
              if targetStatus = LoanStatus.disbursed ∧ loan.disbursementDate = none
              then some now else loan.disbursementDate }
    else Except.error TransitionError.Forbidden
  else Except.error TransitionError.InvalidTransition

/-- The `filteredLoans` predicate of the admin loans page
(src/unnamed/part_000, lines 133-138): case-insensitive substring match
of the search term against borrower name, reason and status string. -/
def loanMatches (searchTerm : Str) (loan : Loan) : Bool :=
  includesStr (toLowerCase loan.user.name) (toLowerCase searchTerm)
  || includesStr (toLowerCase loan.reason) (toLowerCase searchTerm)
  || includesStr (toLowerCase (statusString loan.status)) (toLowerCase searchTerm)

/-- `filteredLoans` (src/unnamed/part_000, lines 133-138). -/
def filteredLoans (loans : List Loan) (searchTerm : Str) : List Loan :=
  List.filter (loanMatches searchTerm) loans

/-- The `filteredBorrowers` predicate of the admin borrowers page
(src/app/admin/borrowers/page.tsx, lines 88-93; the verifier borrowers
page, src/app/verifier/borrowers/page.tsx lines 71-76, is textually
identical): name and email are lowercased on both sides, the phone
comparison is `borrower.phone.includes(searchTerm)` on the raw
strings. -/
def borrowerMatches (searchTerm : Str) (b : Borrower) : Bool :=
  includesStr (toLowerCase b.name) (toLowerCase searchTerm)
  || includesStr (toLowerCase b.email) (toLowerCase searchTerm)
  || includesStr b.phone searchTerm

/-- `filteredBorrowers` (src/app/admin/borrowers/page.tsx, lines 88-93). -/
def filteredBorrowers (bs : List Borrower) (searchTerm : Str) : List Borrower :=
  List.filter (borrowerMatches searchTerm) bs

/-- The search predicate as the spec words it: "case-insensitive
substring match of a search term against borrower name, email, phone",
i.e. all three fields lowercased before comparison.  Stated for
comparison with `borrowerMatches`, which is embedded from the source. -/
def borrowerMatchesSpecCI (searchTerm : Str) (b : Borrower) : Bool :=
  includesStr (toLowerCase b.name) (toLowerCase searchTerm)
  || includesStr (toLowerCase b.email) (toLowerCase searchTerm)
  || includesStr (toLowerCase b.phone) (toLowerCase searchTerm)

/-- JS `x.toFixed(1)` on a non-negative number, reading the result back
as a number: round to one decimal place. -/
def toFixed1 (q : ℚ) : ℚ :=
  (((q * 10 + 1 / 2 : ℚ).floor : ℚ)) / 10

/-- `totalLoans` (src/unnamed/part_000, line 246). -/
def totalLoans (loans : List Loan) : ℕ :=
  List.length loans

/-- `totalAmount` (src/unnamed/part_000, line 247). -/
def totalAmount (loans : List Loan) : ℚ :=
  List.foldl (fun sum loan => sum + loan.amount) 0 loans

/-- `totalDisbursed` (src/unnamed/part_000, lines 248-250): sum of
`amount` over loans whose status is in
`["disbursed", "repaying", "completed", "defaulted"]`. -/
def totalDisbursed (loans : List Loan) : ℚ :=
  List.foldl (fun sum loan => sum + loan.amount) 0
    (List.filter
      (fun loan =>
        List.contains
          [LoanStatus.disbursed, LoanStatus.repaying, LoanStatus.completed,
            LoanStatus.defaulted] loan.status)
      loans)

/-- `totalRepaid` (src/unnamed/part_000, line 251). -/
def totalRepaid (loans : List Loan) : ℚ :=
  List.foldl (fun sum loan => sum + loan.amountPaid) 0 loans

/-- The disbursed percentage of the Total Disbursed card
(src/unnamed/part_000, line 283):
`totalAmount > 0 ? ((totalDisbursed / totalAmount) * 100).toFixed(1) : 0`. -/
def disbursedPct (loans : List Loan) : ℚ :=
  if totalAmount loans > 0
  then toFixed1 (totalDisbursed loans / totalAmount loans * 100) else 0

/-- The repaid percentage of the Total Repaid card
(src/unnamed/part_000, line 294). -/
def repaidPct (loans : List Loan) : ℚ :=
  if totalDisbursed loans > 0
  then toFixed1 (totalRepaid loans / totalDisbursed loans * 100) else 0

/-- `activeCount` (src/app/admin/borrowers/page.tsx, line 193). -/
def activeCount (bs : List Borrower) : ℕ :=
  List.length (List.filter (fun b => b.status = BorrowerStatus.active) bs)

/-- `inactiveCount` (src/app/admin/borrowers/page.tsx, line 194). -/
def inactiveCount (bs : List Borrower) : ℕ :=
  List.length (List.filter (fun b => b.status = BorrowerStatus.inactive) bs)

/-- `blacklistedCount` (src/app/admin/borrowers/page.tsx, line 195). -/
def blacklistedCount (bs : List Borrower) : ℕ :=
  List.length (List.filter (fun b => b.status = BorrowerStatus.blacklisted) bs)

/-- The per-status borrower percentage of the stat cards
(src/app/admin/borrowers/page.tsx, lines 209, 220, 231):
`borrowers.length > 0 ? ((count / borrowers.length) * 100).toFixed(1) : 0`. -/
def borrowerPct (count : ℕ) (bs : List Borrower) : ℚ :=
  if List.length bs > 0
  then toFixed1 ((count : ℚ) / (List.length bs : ℚ) * 100) else 0

/-- The fixed page size of every table: `const [itemsPerPage] = useState(5)`
(src/unnamed/part_000, line 546; src/app/admin/borrowers/page.tsx,
line 381). -/
def itemsPerPage : ℕ := 5

/-- The slice of one page, from the table components
(src/unnamed/part_000, lines 548-550):
`loans.slice((page - 1) * itemsPerPage, page * itemsPerPage)`. -/
def pageSlice {α : Type} (items : List α) (page : ℕ) : List α :=
  List.take itemsPerPage (List.drop ((page - 1) * itemsPerPage) items)

/-- `totalPages = Math.ceil(items.length / itemsPerPage)`
(src/unnamed/part_000, line 551). -/
def totalPages {α : Type} (items : List α) : ℕ :=
  (List.length items + itemsPerPage - 1) / itemsPerPage

/-- The pages 1 .. totalPages, in order. -/
def allPages {α : Type} (items : List α) : List (List α) :=
  List.map (fun i => pageSlice items (i + 1)) (List.range (totalPages items))

/-- A concrete borrower of a demo loan. -/
def demoUser : LoanUser :=
  { _id := "u1".toList, name := "John Doe".toList, email := "john@x.com".toList }

/-- A concrete approved loan with no disbursement date. -/
def demoLoanApproved : Loan :=
  { _id := "loan1".toList
    user := demoUser
    amount := 100000
    interestRate := 15
    tenure := 12
    applicationDate := "2024-01-01".toList
    disbursementDate := none
    status := LoanStatus.approved
    reason := "business".toList
    amountPaid := 0
    totalAmountPayable := 115000 }

/-- A concrete pending loan. -/
def demoLoanPending : Loan :=
  { demoLoanApproved with _id := "loan2".toList, status := LoanStatus.pending }

/-- A concrete completed loan. -/
def demoLoanCompleted : Loan :=
  { demoLoanApproved with
      _id := "loan3".toList
      status := LoanStatus.completed
      disbursementDate := some "2024-02-01".toList
      amountPaid := 115000 }

/-- A concrete timestamp. -/
def demoNow : Str := "2024-06-01".toList

/-- A concrete borrower whose phone holds an upper-case letter. -/
def demoBorrower : Borrower :=
  { _id := "b1".toList
    name := "Bob".toList
    email := "b@x.io".toList
    phone := "5A".toList
    status := BorrowerStatus.active
    loans := 1
    totalBorrowed := 1000
    lastActivity := "2024-05-01".toList }

theorem leadsWith_iff : ∀ (sub hay : Str), leadsWith sub hay = true ↔ ∃ post : Str, sub ++ post = hay
  | [], hay => by simp [leadsWith]
  | a :: as, [] => by simp [leadsWith]
  | a :: as, b :: bs => by
    simp [leadsWith, leadsWith_iff as bs]

theorem includesStr_iff : ∀ (hay sub : Str), includesStr hay sub = true ↔ SubstringOf sub hay
  | [], sub => by
    cases sub with
    | nil => simp [includesStr, leadsWith, SubstringOf]
    | cons a as => simp [includesStr, leadsWith, SubstringOf]
  | h :: t, sub => by
    rw [includesStr]
    rw [Bool.or_eq_true, leadsWith_iff, includesStr_iff t sub]
    unfold SubstringOf
    constructor
    · rintro (⟨post, hp⟩ | ⟨pre, post, hp⟩)
      · exact ⟨[], post, by simpa using hp⟩
      · exact ⟨h :: pre, post, by simp [hp]⟩
    · rintro ⟨pre, post, hp⟩
      cases pre with
      | nil => exact Or.inl ⟨post, by simpa using hp⟩
      | cons x xs =>
        simp only [List.cons_append, List.cons.injEq] at hp
        exact Or.inr ⟨xs, post, hp.2⟩

theorem includesStr_nil_sub (hay : Str) : includesStr hay [] = true := by
  cases hay <;> simp [includesStr, leadsWith]

theorem loanMatches_nil (l : Loan) : loanMatches [] l = true := by
  simp [loanMatches, toLowerCase, includesStr_nil_sub]

theorem borrowerMatches_nil (b : Borrower) : borrowerMatches [] b = true := by
  simp [borrowerMatches, toLowerCase, includesStr_nil_sub]

theorem join_chunks {α : Type} (k : ℕ) :
    ∀ (n : ℕ) (l : List α), List.length l ≤ n * k →
      List.flatten (List.map (fun i => List.take k (List.drop (i * k) l)) (List.range n)) = l := by
  intro n
  induction n with
  | zero =>
    intro l hl
    simp only [Nat.zero_mul, Nat.le_zero] at hl
    simp [List.length_eq_zero.mp hl]
  | succ n ih =>
    intro l hl
    rw [List.range_succ_eq_map, List.map_cons, List.flatten_cons, List.map_map]
    have hfun : ((fun i => List.take k (List.drop (i * k) l)) ∘ Nat.succ)
        = (fun i => List.take k (List.drop (i * k) (List.drop k l))) := by
      funext i
      simp [Function.comp, List.drop_drop, Nat.succ_mul, Nat.add_comm]
    rw [hfun]
    have hlen : List.length (List.drop k l) ≤ n * k := by
      rw [List.length_drop]
      refine Nat.sub_le_iff_le_add.mpr ?_
      rw [Nat.succ_mul] at hl
      exact hl
    rw [ih (List.drop k l) hlen]
    simp [List.take_append_drop]

/-- C8: concatenating the page slices for pages 1 through
`totalPages = ceil(len/5)` in order reconstructs the original collection
exactly, with each item appearing exactly once. -/
theorem pagination_reconstructs {α : Type} (items : List α) :
    List.flatten (allPages items) = items := by
  unfold allPages pageSlice
  have hfun : (fun i => List.take itemsPerPage (List.drop ((i + 1 - 1) * itemsPerPage) items))
      = (fun i => List.take itemsPerPage (List.drop (i * itemsPerPage) items)) := by
    funext i
    simp
  rw [hfun]
  apply join_chunks
  unfold totalPages itemsPerPage
  omega

/-- C4 counterexample: on the admin loans page, no action button offers
the transition `pending → approved`; the only admin targets from
`pending` are `verified` and `rejected`. -/
theorem admin_pending_approve_cex :
    List.contains (adminLoanTargets LoanStatus.pending) LoanStatus.approved = false := by
  decide

/-- C4 amended: for every loan in status pending, the admin role may
transition it to `verified` or `rejected` only (two allowed targets from
`pending` for admin; `approved` is not offered from `pending`). -/
theorem admin_pending_targets :
    adminLoanTargets LoanStatus.pending = [LoanStatus.verified, LoanStatus.rejected] := by
  decide

/-- C5: a successful status update replaces only the `status` field; the
spread `{ ...loan, status: newStatus }` (and likewise for borrowers)
leaves every other field of the record unchanged, and the new status
equals the requested target. -/
theorem status_update_frame (l : Loan) (st : LoanStatus) (b : Borrower)
    (bst : BorrowerStatus) :
    (withStatus l st).status = st ∧
    (withStatus l st)._id = l._id ∧
    (withStatus l st).user = l.user ∧
    (withStatus l st).amount = l.amount ∧
    (withStatus l st).interestRate = l.interestRate ∧
    (withStatus l st).tenure = l.tenure ∧
    (withStatus l st).applicationDate = l.applicationDate ∧
    (withStatus l st).disbursementDate = l.disbursementDate ∧
    (withStatus l st).reason = l.reason ∧
    (withStatus l st).amountPaid = l.amountPaid ∧
    (withStatus l st).totalAmountPayable = l.totalAmountPayable ∧
    (withBorrowerStatus b bst).status = bst ∧
    (withBorrowerStatus b bst)._id = b._id ∧
    (withBorrowerStatus b bst).name = b.name ∧
    (withBorrowerStatus b bst).email = b.email ∧
    (withBorrowerStatus b bst).phone = b.phone ∧
    (withBorrowerStatus b bst).loans = b.loans ∧
    (withBorrowerStatus b bst).totalBorrowed = b.totalBorrowed ∧
    (withBorrowerStatus b bst).lastActivity = b.lastActivity :=
  ⟨rfl, rfl, rfl, rfl, rfl, rfl, rfl, rfl, rfl, rfl, rfl, rfl, rfl, rfl, rfl, rfl, rfl,
    rfl, rfl⟩

/-- C6 counterexample: the borrower filter is not case-insensitive on the
phone field.  For search term "a" and a borrower with phone "5A" (name
"Bob", email "b@x.io"), the spec's fully case-insensitive matcher
accepts while the source filter rejects. -/
theorem borrower_phone_case_cex :
    borrowerMatches ("a".toList) demoBorrower = false ∧
    borrowerMatchesSpecCI ("a".toList) demoBorrower = true := by
  decide

/-- C6 amended: the filter matches a borrower if and only if the
lowercased term is a substring of the lowercased name or of the
lowercased email, or the raw term is a substring of the raw phone —
matching is case-insensitive for name and email but case-sensitive for
phone. -/
theorem borrower_filter_contract (searchTerm : Str) (b : Borrower) :
    borrowerMatches searchTerm b = true ↔
      (SubstringOf (toLowerCase searchTerm) (toLowerCase b.name)
        ∨ SubstringOf (toLowerCase searchTerm) (toLowerCase b.email)
        ∨ SubstringOf searchTerm b.phone) := by
  unfold borrowerMatches
  simp [includesStr_iff, or_assoc]

/-- C7: on the empty collection every aggregate is zero, every
percentage takes its zero-guarded branch, and no division-by-zero fault
arises. -/
theorem aggregates_empty_zero :
    totalLoans [] = 0 ∧ totalAmount [] = 0 ∧ totalDisbursed [] = 0 ∧ totalRepaid [] = 0 ∧
    disbursedPct [] = 0 ∧ repaidPct [] = 0 ∧
    activeCount [] = 0 ∧ inactiveCount [] = 0 ∧ blacklistedCount [] = 0 ∧
    borrowerPct (activeCount []) [] = 0 ∧ borrowerPct (inactiveCount []) [] = 0 ∧
    borrowerPct (blacklistedCount []) [] = 0 := by
  refine ⟨rfl, rfl, rfl, rfl, ?_, ?_, rfl, rfl, rfl, ?_, ?_, ?_⟩ <;>
    simp [disbursedPct, repaidPct, borrowerPct, totalAmount, totalDisbursed, totalRepaid]

/-- C9: filtering with the empty search term returns the collection
unchanged, and filtering twice with the same term equals filtering once,
both for loans and for borrowers. -/
theorem filter_identity_idempotent (loans : List Loan) (bs : List Borrower) (t : Str) :
    filteredLoans loans [] = loans ∧
    filteredBorrowers bs [] = bs ∧
    filteredLoans (filteredLoans loans t) t = filteredLoans loans t ∧
    filteredBorrowers (filteredBorrowers bs t) t = filteredBorrowers bs t := by
  refine ⟨?_, ?_, ?_, ?_⟩
  · exact List.filter_eq_self.mpr (fun a _ => loanMatches_nil a)
  · exact List.filter_eq_self.mpr (fun a _ => borrowerMatches_nil a)
  · exact List.filter_eq_self.mpr (fun a ha => List.of_mem_filter ha)
  · exact List.filter_eq_self.mpr (fun a ha => List.of_mem_filter ha)

/-- C1: from a terminal status (`completed`, `defaulted`, `rejected`) no
page offers a transition button to any role, and `requestTransition`
fails for every role and every target. -/
theorem terminal_no_transitions (s : LoanStatus) (hs : s ∈ terminalStatuses) :
    (∀ r : Role, allowedTargets r s = []) ∧
    (∀ (now : Str) (loan : Loan) (r : Role) (t : LoanStatus), loan.status = s →
      ∃ e, requestTransition now loan r t = Except.error e) := by
  have hterm : s = LoanStatus.completed ∨ s = LoanStatus.defaulted ∨ s = LoanStatus.rejected := by
    simpa [terminalStatuses] using hs
  constructor
  · intro r
    rcases hterm with rfl | rfl | rfl <;> revert r <;> decide
  · intro now loan r t h
    have hedge : ∀ t' : LoanStatus, edgeExists s t' = false := by
      rcases hterm with rfl | rfl | rfl <;> decide
    by_cases ht : t = loan.status
    · exact ⟨TransitionError.DegenerateInput, by simp [requestTransition, ht]⟩
    · rw [h] at ht
      exact ⟨TransitionError.InvalidTransition,
        by simp [requestTransition, ht, h, hedge t]⟩

/-- C1 witness: concrete instance at the terminal status `completed`. -/
theorem terminal_no_transitions_witness :
    LoanStatus.completed ∈ terminalStatuses ∧
    allowedTargets Role.admin LoanStatus.completed = [] ∧
    ∃ e, requestTransition demoNow demoLoanCompleted Role.admin LoanStatus.repaying =
      Except.error e :=
  ⟨by simp [terminalStatuses],
    (terminal_no_transitions LoanStatus.completed (by simp [terminalStatuses])).1 Role.admin,
    (terminal_no_transitions LoanStatus.completed (by simp [terminalStatuses])).2
      demoNow demoLoanCompleted Role.admin LoanStatus.repaying rfl⟩

/-- C2 counterexample: the status update the admin loans page performs on
an `approved → disbursed` request is `{ ...loan, status: newStatus }`:
on a loan with no disbursement date the resulting record has status
`disbursed` but its `disbursementDate` is still unset, not newly
populated. -/
theorem disburse_leaves_date_unset_cex :
    demoLoanApproved.status = LoanStatus.approved ∧
    demoLoanApproved.disbursementDate = none ∧
    List.map Loan.status
      (updateLoanStatus [demoLoanApproved] ("loan1".toList) LoanStatus.disbursed)
      = [LoanStatus.disbursed] ∧
    List.map Loan.disbursementDate
      (updateLoanStatus [demoLoanApproved] ("loan1".toList) LoanStatus.disbursed)
      = [none] := by
  refine ⟨rfl, rfl, ?_, ?_⟩ <;>
    simp [updateLoanStatus, withStatus, demoLoanApproved]

/-- C2 amended: when an admin requests `approved → disbursed`, the update
succeeds and the resulting loan has status `disbursed` with every other
field unchanged; in particular `disbursementDate` keeps its previous
value and is never populated by this code. -/
theorem disburse_updates_only_status (loans : List Loan) (loanId : Str) (l : Loan)
    (hmem : l ∈ loans) (hid : l._id = loanId) (_happr : l.status = LoanStatus.approved) :
    ∃ l', l' ∈ updateLoanStatus loans loanId LoanStatus.disbursed ∧
      l'.status = LoanStatus.disbursed ∧
      l'.disbursementDate = l.disbursementDate ∧
      l'._id = l._id ∧ l'.user = l.user ∧ l'.amount = l.amount ∧
      l'.interestRate = l.interestRate ∧ l'.tenure = l.tenure ∧
      l'.applicationDate = l.applicationDate ∧ l'.reason = l.reason ∧
      l'.amountPaid = l.amountPaid ∧ l'.totalAmountPayable = l.totalAmountPayable := by
  refine ⟨withStatus l LoanStatus.disbursed, ?_, rfl, rfl, rfl, rfl, rfl, rfl, rfl, rfl,
    rfl, rfl, rfl⟩
  unfold updateLoanStatus
  exact List.mem_map.mpr ⟨l, hmem, by rw [if_pos hid]⟩

/-- C2 amended witness: concrete instance on the demo approved loan. -/
theorem disburse_updates_only_status_witness :
    demoLoanApproved ∈ [demoLoanApproved] ∧
    demoLoanApproved._id = "loan1".toList ∧
    demoLoanApproved.status = LoanStatus.approved ∧
    ∃ l', l' ∈ updateLoanStatus [demoLoanApproved] ("loan1".toList) LoanStatus.disbursed ∧
      l'.status = LoanStatus.disbursed ∧
      l'.disbursementDate = demoLoanApproved.disbursementDate ∧
      l'._id = demoLoanApproved._id ∧ l'.user = demoLoanApproved.user ∧
      l'.amount = demoLoanApproved.amount ∧
      l'.interestRate = demoLoanApproved.interestRate ∧
      l'.tenure = demoLoanApproved.tenure ∧
      l'.applicationDate = demoLoanApproved.applicationDate ∧
      l'.reason = demoLoanApproved.reason ∧
      l'.amountPaid = demoLoanApproved.amountPaid ∧
      l'.totalAmountPayable = demoLoanApproved.totalAmountPayable :=
  ⟨List.mem_singleton.mpr rfl, rfl, rfl,
    disburse_updates_only_status [demoLoanApproved] ("loan1".toList) demoLoanApproved
      (List.mem_singleton.mpr rfl) rfl rfl⟩

/-- C3: from a pending loan the verifier pages offer only `verified` and
`rejected`, and a verifier request of `pending → approved` is rejected
as `Forbidden` (so no updated loan is produced and the status stays
unchanged). -/
theorem verifier_pending_only_verify_reject :
    verifierLoanTargets LoanStatus.pending = [LoanStatus.verified, LoanStatus.rejected] ∧
    ∀ (now : Str) (loan : Loan), loan.status = LoanStatus.pending →
      requestTransition now loan Role.verifier LoanStatus.approved =
        Except.error TransitionError.Forbidden := by
  constructor
  · decide
  · intro now loan h
    unfold requestTransition
    rw [h]
    have h1 : ¬(LoanStatus.approved = LoanStatus.pending) := by decide
    have h2 : edgeExists LoanStatus.pending LoanStatus.approved = true := by decide
    have h3 : List.contains (specTransitionTable Role.verifier LoanStatus.pending)
        LoanStatus.approved = false := by decide
    simp [h1, h2, h3]

/-- C3 witness: concrete instance on the demo pending loan. -/
theorem verifier_pending_only_verify_reject_witness :
    demoLoanPending.status = LoanStatus.pending ∧
    requestTransition demoNow demoLoanPending Role.verifier LoanStatus.approved =
      Except.error TransitionError.Forbidden :=
  ⟨rfl, verifier_pending_only_verify_reject.2 demoNow demoLoanPending rfl⟩

/-- C10: a status update for identifier X preserves the length and the
order of the collection, leaves every record whose identifier differs
from X unchanged, and gives every record with identifier X exactly the
new status (for loans and for borrowers alike). -/
theorem update_preserves_others (loans : List Loan) (bs : List Borrower) (targetId : Str)
    (st : LoanStatus) (bst : BorrowerStatus) :
    List.length (updateLoanStatus loans targetId st) = List.length loans ∧
    (∀ i : ℕ, (updateLoanStatus loans targetId st)[i]? =
      Option.map (fun l => if l._id = targetId then withStatus l st else l) loans[i]?) ∧
    (∀ i : ℕ, ∀ l : Loan, loans[i]? = some l → l._id ≠ targetId →
      (updateLoanStatus loans targetId st)[i]? = some l) ∧
    (∀ i : ℕ, ∀ l : Loan, loans[i]? = some l → l._id = targetId →
      (updateLoanStatus loans targetId st)[i]? = some (withStatus l st)) ∧
    List.length (updateBorrowerStatus bs targetId bst) = List.length bs ∧
    (∀ i : ℕ, ∀ b : Borrower, bs[i]? = some b → b._id ≠ targetId →
      (updateBorrowerStatus bs targetId bst)[i]? = some b) := by
  refine ⟨List.length_map _ _, ?_, ?_, ?_, List.length_map _ _, ?_⟩
  · intro i
    simp [updateLoanStatus]
  · intro i l hl hne
    simp [updateLoanStatus, hl, hne]
  · intro i l hl heq
    simp [updateLoanStatus, hl, heq]
  · intro i b hb hne
    simp [updateBorrowerStatus, hb, hne]

/-- C10 witness: a loan whose id differs from the updated id is returned
unchanged at its original position. -/
theorem update_preserves_others_witness :
    ([demoLoanCompleted][0]? = some demoLoanCompleted) ∧
    demoLoanCompleted._id ≠ "loan1".toList ∧
    (updateLoanStatus [demoLoanCompleted] ("loan1".toList) LoanStatus.disbursed)[0]?
      = some demoLoanCompleted :=
  ⟨rfl, by decide,
    (update_preserves_others [demoLoanCompleted] [] ("loan1".toList) LoanStatus.disbursed
      BorrowerStatus.active).2.2.1 0 demoLoanCompleted rfl (by decide)⟩
